import Mathlib

/-! Verification of the rblxdisc monitor: a shallow embedding of the session
state machine, log-line event classifier, disconnect reconciliation,
log tailer and supervisor wrapper from `single_user_bot.py` and
`wrapper.py`, together with theorems settling the specification's
testable properties.

Conventions: machine text (log lines, keywords) is modelled as `List Char`;
wall-clock and monotonic timestamps are modelled as `Int` seconds
(the code stores wall-clock times as second-resolution formatted strings
and parses them back, so second arithmetic is exact); Python `Optional`
values are `Option`; Python falsy-number checks (`if computed_start:`)
are modelled as an explicit comparison with `0`.
-/

/-- True when `needle` occurs at the very start of `hay`
(auxiliary for Python's substring operator `in`). -/
def matchesAt : List Char → List Char → Bool
  | [], _ => true
  | _ :: _, [] => false
  | k :: ks, c :: cs => k == c && matchesAt ks cs

/-- Python's `needle in hay` substring test on lists of characters. -/
def containsSub (needle : List Char) : List Char → Bool
  | [] => matchesAt needle []
  | c :: cs => matchesAt needle (c :: cs) || containsSub needle cs

/-- Definition `DISCONNECT_KEYWORDS` from `single_user_bot.py` (lines 49-54). -/
def DISCONNECT_KEYWORDS : List (List Char) :=
  ["Lost connection with reason".toList,
   "Client has been disconnected with reason".toList,
   "Disconnection Notification.".toList]

/-- The event classification of one tailed log line.  `noneEvent` is a line
matching no keyword. -/
inductive ClassifiedEvent where
  | disconnect
  | closed
  | noneEvent
deriving DecidableEq

/-- The per-line keyword classification performed by `monitor_logs_thread`
(`single_user_bot.py` lines 818-836): the disconnect-keyword check
`any(keyword in line for keyword in DISCONNECT_KEYWORDS)` runs first
(its branch ends in `continue`/`break`), then `"stop() called" in line`. -/
def classify (line : List Char) : ClassifiedEvent :=
  if DISCONNECT_KEYWORDS.any (fun kw => containsSub kw line) then
    ClassifiedEvent.disconnect
  else if containsSub "stop() called".toList line then
    ClassifiedEvent.closed
  else
    ClassifiedEvent.noneEvent

/-- The session state owned by `monitor_roblox`: the globals
`roblox_running` and `session_start` (`session_start = 0` means unset,
matching the code's sentinel). -/
structure MonitorState where
  roblox_running : Bool
  session_start : Int
deriving DecidableEq

/-- One input observed by the session state machine: a `ProcessWatcher`
reading (with the optional process-create-time estimate from
`get_roblox_session_start_time` and the current monotonic clock), or a
classified log event from `monitor_logs_thread`. -/
inductive MonInput where
  | reading (isRunning : Bool) (createEstimate : Option Int) (nowMono : Int)
  | logEvent (e : ClassifiedEvent)
deriving DecidableEq

/-- Notifications emitted by the `monitor_roblox` loop itself. -/
inductive MonNotif where
  | sessionStarted
deriving DecidableEq

/-- One iteration of the `monitor_roblox` task body
(`single_user_bot.py` lines 708-732) on a `ProcessWatcher` reading, and
the effect of a classified log event on the session fields.
`monitor_logs_thread` (lines 818-836) kills the Roblox process on a
Disconnect/Closed event but writes neither `roblox_running` nor
`session_start`, so a `logEvent` leaves this state unchanged (the reset
to Idle follows only from a later not-running reading); its
notifications and kill effect are modelled separately by `handle_line`. -/
def monitor_step : MonInput → MonitorState → MonitorState × List MonNotif
  | MonInput.reading r est now, s =>
    if r && !s.roblox_running then
      let start : Int :=
        match est with
        | some v => if v = 0 then now else v
        | Option.none => now
      ({ roblox_running := true, session_start := start }, [MonNotif.sessionStarted])
    else if !r && s.roblox_running then
      ({ roblox_running := false, session_start := 0 }, [])
    else (s, [])
  | MonInput.logEvent _, s => (s, [])

/-- Run the session state machine over a list of inputs, collecting the
notifications emitted along the way. -/
def mon_run : List MonInput → MonitorState → MonitorState × List MonNotif
  | [], s => (s, [])
  | i :: is, s =>
    let p1 := monitor_step i s
    let p2 := mon_run is p1.1
    (p2.1, p1.2 ++ p2.2)

/-- The value of the most recently observed `ProcessWatcher` reading in an
input sequence (`b` is the value before the sequence; log events do not
carry a reading). -/
def lastReadingAux : List MonInput → Bool → Bool
  | [], b => b
  | MonInput.reading r _ _ :: is, _ => lastReadingAux is r
  | MonInput.logEvent _ :: is, b => lastReadingAux is b

/-- The condition stated by the specification for C1: the most recently
observed reading was true and no Closed/Disconnect event has occurred since
(such an event would, per the spec, reset the state to Idle). -/
def specC1Cond : List MonInput → Bool → Bool
  | [], b => b
  | MonInput.reading r _ _ :: is, _ => specC1Cond is r
  | MonInput.logEvent ClassifiedEvent.disconnect :: is, _ => specC1Cond is false
  | MonInput.logEvent ClassifiedEvent.closed :: is, _ => specC1Cond is false
  | MonInput.logEvent ClassifiedEvent.noneEvent :: is, b => specC1Cond is b

/-- Side condition for readings: the monotonic clock value supplied with a
reading is nonzero (`time.monotonic()` is a positive number of seconds, and
`session_start = 0` is the code's sentinel for "unset"). -/
def monInputOk : MonInput → Prop
  | MonInput.reading _ _ now => now ≠ 0
  | MonInput.logEvent _ => True

/-- The control-plane (Discord gateway) reconciliation state: globals
`disconnect_timestamp`, `last_discord_disconnect_time` (initially `0`) and
`last_roblox_disconnect_time` from `single_user_bot.py`. -/
structure BotConnState where
  disconnect_timestamp : Option Int
  last_discord_disconnect_time : Int
  last_roblox_disconnect_time : Option Int
deriving DecidableEq

/-- The `on_disconnect` handler (`single_user_bot.py` lines 464-476):
debounce repeats within 10 seconds, then record the disconnect wall-clock
time once if none is recorded yet. -/
def on_disconnect (now : Int) (s : BotConnState) : BotConnState :=
  if now - s.last_discord_disconnect_time < 10 then s
  else
    let s1 := { s with last_discord_disconnect_time := now }
    match s1.disconnect_timestamp with
    | some _ => s1
    | Option.none => { s1 with disconnect_timestamp := some now }

/-- The notification emitted on resume: `combined` carries the extra
"Possible Roblox disconnect at ..." sentence, `plain` does not. -/
inductive ResumeNotif where
  | combined (discordAt : Int) (robloxAt : Int)
  | plain (discordAt : Int)
deriving DecidableEq

/-- The `on_resumed` handler (`single_user_bot.py` lines 478-508): if no
disconnect time is recorded, do nothing; otherwise emit one notification,
combined when the recorded Roblox disconnect is within the 3600-second
window (`delta = abs((dt1 - dt2).total_seconds()); delta <= 3600`), and
clear `disconnect_timestamp`. -/
def on_resumed (s : BotConnState) : BotConnState × List ResumeNotif :=
  match s.disconnect_timestamp with
  | Option.none => (s, [])
  | some dt =>
    let notif :=
      match s.last_roblox_disconnect_time with
      | some rt =>
        if (dt - rt).natAbs ≤ 3600 then ResumeNotif.combined dt rt
        else ResumeNotif.plain dt
      | Option.none => ResumeNotif.plain dt
    ({ s with disconnect_timestamp := Option.none }, [notif])

/-- State mutated by `monitor_logs_thread` while handling classified lines:
the one-shot ignore flag `flag_dc`, the recorded Roblox disconnect time, and
whether the tail loop has broken out (`break` after handling an event). -/
structure LogThreadState where
  flag_dc : Bool
  last_roblox_disconnect_time : Option Int
  stopped : Bool
deriving DecidableEq

/-- Externally visible effects of handling one log line. -/
inductive LogEffect where
  | notifDisconnect (line : List Char)
  | notifClosed
  | kill
deriving DecidableEq

/-- The per-line event handling of `monitor_logs_thread`
(`single_user_bot.py` lines 818-836): on a disconnect-keyword line, if
`flag_dc` is set consume it and skip all handling (`continue`); otherwise
record the disconnect time, emit the notification, kill Roblox and break.
On a `stop() called` line, emit the closed notification, kill and break. -/
def handle_line (now : Int) (s : LogThreadState) (line : List Char) :
    LogThreadState × List LogEffect :=
  if s.stopped then (s, [])
  else
    match classify line with
    | ClassifiedEvent.disconnect =>
      if s.flag_dc then ({ s with flag_dc := false }, [])
      else
        ({ s with last_roblox_disconnect_time := some now, stopped := true },
         [LogEffect.notifDisconnect line, LogEffect.kill])
    | ClassifiedEvent.closed =>
      ({ s with stopped := true }, [LogEffect.notifClosed, LogEffect.kill])
    | ClassifiedEvent.noneEvent => (s, [])

/-- Function `elapsed_time` (`single_user_bot.py` lines 195-199): `0` while idle,
otherwise the monotonic difference clamped at `0`. -/
def elapsed_time (session_start nowMono : Int) : Int :=
  if session_start = 0 then 0 else max 0 (nowMono - session_start)

/-- Function `hhmmss` (`single_user_bot.py` lines 201-205), with Python's floor
division and modulo. -/
def hhmmss (seconds : Int) : String :=
  let h := seconds.fdiv 3600
  let m := (seconds.fmod 3600).fdiv 60
  let s := seconds.fmod 60
  s!"{h}h {m}m {s}s"

/-- The Roblox line of the `uptime` command report (`single_user_bot.py`
lines 655-657): `hhmmss(elapsed_time())` when the watcher reading is
running, `"N/A"` otherwise. -/
def roblox_uptime_field (running : Bool) (session_start nowMono : Int) : String :=
  if running then hhmmss (elapsed_time session_start nowMono) else "N/A"

/-- A log file, as the list of complete lines it contains. -/
abbrev TailFile := List (List Char)

/-- The log tailer's cursor: the index of the file it is reading (in the
directory listing ordered by creation time, newest last) and how many lines
of it have been consumed. -/
structure TailState where
  current : Nat
  offset : Nat
deriving DecidableEq

/-- One poll iteration of the tail loop in `monitor_logs_thread`
(`single_user_bot.py` lines 796-816): yield the next line of the current
file if one exists; otherwise look for the newest file in the directory
(`max(all_logs, key=os.path.getctime)`, here the last index) and, if it
differs from the current one, switch to it and seek to its end
(`f.seek(0, os.SEEK_END)`), yielding nothing this iteration. -/
def tailStep (dir : List TailFile) (s : TailState) : TailState × Option (List Char) :=
  match dir.get? s.current with
  | Option.none => (s, Option.none)
  | some content =>
    if h : s.offset < content.length then
      ({ s with offset := s.offset + 1 }, some (content.get ⟨s.offset, h⟩))
    else
      let latest := dir.length - 1
      if latest ≠ s.current then
        ({ current := latest, offset := ((dir.get? latest).getD []).length },
         Option.none)
      else (s, Option.none)

/-- Run `n` poll iterations of the tailer against a fixed directory state,
collecting the yielded lines in order. -/
def tailRun (dir : List TailFile) : Nat → TailState → TailState × List (List Char)
  | 0, s => (s, [])
  | n + 1, s =>
    let p1 := tailStep dir s
    let p2 := tailRun dir n p1.1
    (p2.1, p1.2.toList ++ p2.2)

/-- The wrapper state (`wrapper.py`, class `WrapperState`). -/
structure WrapperState where
  max_restarts : Nat
  auto_restart : Bool
  restart_delay : Nat
  restart_count : Nat
  last_crash_times : List Int
  crash_count_last_minute : Nat
deriving DecidableEq

/-- The wrapper state at startup with the default arguments
(`wrapper.py`: `DEFAULT_MAX_RESTARTS = 50`, auto-restart on,
`DEFAULT_RESTART_DELAY = 10`). -/
def wrapper_init : WrapperState :=
  { max_restarts := 50, auto_restart := true, restart_delay := 10,
    restart_count := 0, last_crash_times := [], crash_count_last_minute := 0 }

/-- Method `WrapperState.record_crash` (`wrapper.py` lines 89-99): drop crash
times `60` or more seconds old, append the current time, and refresh the
crash count. -/
def record_crash (now : Int) (s : WrapperState) : WrapperState :=
  let kept := s.last_crash_times.filter (fun t => decide (now - t < 60))
  let times := kept ++ [now]
  { s with last_crash_times := times, crash_count_last_minute := times.length }

/-- Method `WrapperState.should_rate_limit` (`wrapper.py` lines 97-99). -/
def should_rate_limit (s : WrapperState) : Bool :=
  decide (s.crash_count_last_minute > 5)

/-- Method `WrapperState.can_restart` (`wrapper.py` lines 101-103). -/
def can_restart (s : WrapperState) : Bool :=
  decide (s.restart_count < s.max_restarts) && s.auto_restart

/-- The backoff delay computed by `run_wrapper` (`wrapper.py` line 256):
`min(restart_delay * (restart_count // 5), 120)`. -/
def backoff_delay (s : WrapperState) : Nat :=
  min (s.restart_delay * (s.restart_count / 5)) 120

/-- The crash branch of `run_wrapper` (`wrapper.py` lines 238-258): record
the crash, bump the restart counter, then keep going only if neither the
rate limit nor the restart cap stops the wrapper.  The returned `Bool` is
`true` when the wrapper restarts the child, `false` when it breaks out of
its loop permanently. -/
def crash_step (now : Int) (s : WrapperState) : WrapperState × Bool :=
  let s1 := record_crash now s
  let s2 := { s1 with restart_count := s1.restart_count + 1 }
  if should_rate_limit s2 then (s2, false)
  else if !can_restart s2 then (s2, false)
  else (s2, true)

/-- Handling of one child exit in `run_wrapper` (`wrapper.py` lines
229-258): exit code `0` stops the wrapper cleanly, exit code `1` is a
configuration error and also stops it, with no crash recorded in either
case; any other code takes the crash branch. -/
def exit_step (code : Int) (now : Int) (s : WrapperState) : WrapperState × Bool :=
  if code = 0 then (s, false)
  else if code = 1 then (s, false)
  else crash_step now s

/-- Process a sequence of child exits (exit code, wall-clock time); once
the wrapper decides to stop it never restarts, so later exits cannot
occur and are discarded. -/
def run_exits : List (Int × Int) → WrapperState → WrapperState × Bool
  | [], s => (s, true)
  | e :: rest, s =>
    match exit_step e.1 e.2 s with
    | (s1, true) => run_exits rest s1
    | (s1, false) => (s1, false)

/-! Section Helper lemmas -/

theorem matchesAt_of_append (a b l : List Char)
    (h : matchesAt (a ++ b) l = true) : matchesAt a l = true := by
  induction a generalizing l with
  | nil => rfl
  | cons x xs ih =>
    cases l with
    | nil => simp [matchesAt] at h
    | cons y ys =>
      simp only [List.cons_append, matchesAt, Bool.and_eq_true] at h ⊢
      exact ⟨h.1, ih ys h.2⟩

theorem containsSub_of_append (a b l : List Char)
    (h : containsSub (a ++ b) l = true) : containsSub a l = true := by
  induction l with
  | nil =>
    cases a with
    | nil => rfl
    | cons x xs => simp [containsSub, matchesAt] at h
  | cons c cs ih =>
    simp only [containsSub, Bool.or_eq_true] at h ⊢
    rcases h with h | h
    · exact Or.inl (matchesAt_of_append a b _ h)
    · exact Or.inr (ih h)

/-! Section C2 : the event classifier -/

/-- Claim C2, counterexample: the line
`"Lost connection with reason: stop() called at 10:00"` contains
`"stop() called at 10:00"` yet classifies as Disconnect, not Closed,
because the disconnect-keyword check runs first. -/
theorem c2_counterexample :
    containsSub "stop() called at 10:00".toList
        "Lost connection with reason: stop() called at 10:00".toList = true
    ∧ classify "Lost connection with reason: stop() called at 10:00".toList
        = ClassifiedEvent.disconnect
    ∧ classify "Lost connection with reason: stop() called at 10:00".toList
        ≠ ClassifiedEvent.closed := by
  refine ⟨by decide, by decide, by decide⟩

/-- Claim C2 (amended): a line containing
`"Lost connection with reason: foo"` classifies as Disconnect; a line
containing `"stop() called at 10:00"` classifies as Closed provided no
disconnect keyword occurs in it (the disconnect keywords are checked
first); a line containing no keyword classifies as no event. -/
theorem c2_classifier (line : List Char) :
    (containsSub "Lost connection with reason: foo".toList line = true →
      classify line = ClassifiedEvent.disconnect)
    ∧ (containsSub "stop() called at 10:00".toList line = true →
      (∀ kw ∈ DISCONNECT_KEYWORDS, containsSub kw line = false) →
      classify line = ClassifiedEvent.closed)
    ∧ ((∀ kw ∈ DISCONNECT_KEYWORDS, containsSub kw line = false) →
      containsSub "stop() called".toList line = false →
      classify line = ClassifiedEvent.noneEvent) := by
  have hsplit1 : "Lost connection with reason: foo".toList
      = "Lost connection with reason".toList ++ ": foo".toList := by decide
  have hsplit2 : "stop() called at 10:00".toList
      = "stop() called".toList ++ " at 10:00".toList := by decide
  refine ⟨?_, ?_, ?_⟩
  · intro h
    have h1 : containsSub "Lost connection with reason".toList line = true := by
      refine containsSub_of_append _ (": foo".toList) line ?_
      rw [← hsplit1]; exact h
    have hany : DISCONNECT_KEYWORDS.any (fun kw => containsSub kw line) = true := by
      refine List.any_eq_true.mpr ?_
      exact ⟨"Lost connection with reason".toList, by simp [DISCONNECT_KEYWORDS], h1⟩
    simp [classify, hany]
  · intro h hnone
    have hany : DISCONNECT_KEYWORDS.any (fun kw => containsSub kw line) = false := by
      refine List.any_eq_false.mpr ?_
      intro kw hkw
      simp [hnone kw hkw]
    have h2 : containsSub "stop() called".toList line = true := by
      refine containsSub_of_append _ (" at 10:00".toList) line ?_
      rw [← hsplit2]; exact h
    unfold classify
    rw [hany, h2]
    simp
  · intro hnone hstop
    have hany : DISCONNECT_KEYWORDS.any (fun kw => containsSub kw line) = false := by
      refine List.any_eq_false.mpr ?_
      intro kw hkw
      simp [hnone kw hkw]
    unfold classify
    rw [hany, hstop]
    simp

/-- Witness for `c2_classifier` at three concrete lines. -/
theorem c2_classifier_witness :
    classify "2026 Lost connection with reason: foo".toList
        = ClassifiedEvent.disconnect
    ∧ classify "2026 stop() called at 10:00".toList = ClassifiedEvent.closed
    ∧ classify "an unrelated line".toList = ClassifiedEvent.noneEvent := by
  refine ⟨(c2_classifier _).1 (by decide),
          (c2_classifier _).2.1 (by decide) (by decide),
          (c2_classifier _).2.2 (by decide) (by decide)⟩

/-! Section C1 : session state vs readings and log events -/

theorem mon_run_spec : ∀ (inputs : List MonInput) (s : MonitorState),
    (∀ i ∈ inputs, monInputOk i) →
    (s.session_start ≠ 0 ↔ s.roblox_running = true) →
    (mon_run inputs s).1.roblox_running = lastReadingAux inputs s.roblox_running
    ∧ ((mon_run inputs s).1.session_start ≠ 0
        ↔ (mon_run inputs s).1.roblox_running = true) := by
  intro inputs
  induction inputs with
  | nil =>
    intro s _ inv
    exact ⟨rfl, inv⟩
  | cons i is ih =>
    intro s hall inv
    have hall' : ∀ j ∈ is, monInputOk j := fun j hj => hall j (List.mem_cons_of_mem _ hj)
    cases i with
    | logEvent e =>
      have hstep : monitor_step (MonInput.logEvent e) s = (s, []) := rfl
      simp only [mon_run, hstep, lastReadingAux]
      exact ih s hall' inv
    | reading r est now =>
      have hok : now ≠ 0 := hall _ (List.mem_cons_self _ _)
      cases hr : r with
      | false =>
        cases hrr : s.roblox_running with
        | false =>
          have hstep : monitor_step (MonInput.reading false est now) s = (s, []) := by
            simp [monitor_step, hrr]
          simp only [mon_run, hstep, lastReadingAux]
          have h := ih s hall' inv
          rw [hrr] at h
          exact h
        | true =>
          have hstep : monitor_step (MonInput.reading false est now) s
              = (⟨false, 0⟩, []) := by
            simp [monitor_step, hrr]
          simp only [mon_run, hstep, lastReadingAux]
          exact ih ⟨false, 0⟩ hall' (by simp)
      | true =>
        cases hrr : s.roblox_running with
        | true =>
          have hstep : monitor_step (MonInput.reading true est now) s = (s, []) := by
            simp [monitor_step, hrr]
          simp only [mon_run, hstep, lastReadingAux]
          have h := ih s hall' inv
          rw [hrr] at h
          exact h
        | false =>
          cases est with
          | none =>
            have hstep : monitor_step (MonInput.reading true Option.none now) s
                = (⟨true, now⟩, [MonNotif.sessionStarted]) := by
              simp [monitor_step, hrr]
            simp only [mon_run, hstep, lastReadingAux]
            exact ih ⟨true, now⟩ hall' (by simp [hok])
          | some v =>
            by_cases hv : v = 0
            · have hstep : monitor_step (MonInput.reading true (some v) now) s
                  = (⟨true, now⟩, [MonNotif.sessionStarted]) := by
                simp [monitor_step, hrr, hv]
              simp only [mon_run, hstep, lastReadingAux]
              exact ih ⟨true, now⟩ hall' (by simp [hok])
            · have hstep : monitor_step (MonInput.reading true (some v) now) s
                  = (⟨true, v⟩, [MonNotif.sessionStarted]) := by
                simp [monitor_step, hrr, hv]
              simp only [mon_run, hstep, lastReadingAux]
              exact ih ⟨true, v⟩ hall' (by simp [hv])

/-- Claim C1, counterexample: after the inputs
`[reading true, logEvent closed]` the code's state is still Running
(`monitor_logs_thread` kills the process on a Closed event but does not
reset `roblox_running`/`session_start`), while the claim's condition —
most recent reading true and no Closed/Disconnect event since — is false,
so the claimed equivalence fails at this input. -/
theorem c1_counterexample :
    ¬ (((mon_run [MonInput.reading true (some 5) 7,
            MonInput.logEvent ClassifiedEvent.closed] ⟨false, 0⟩).1.roblox_running = true)
       ↔ (specC1Cond [MonInput.reading true (some 5) 7,
            MonInput.logEvent ClassifiedEvent.closed] false = true)) := by
  decide

/-- Claim C1 (amended): for every input sequence (with nonzero monotonic
clock readings), the state is Running iff the most recently observed
ProcessWatcher reading was true — classified Closed/Disconnect log events
themselves leave the session state unchanged, the reset happening only
through a later not-running reading — and `session_start` is nonzero iff
the state is Running. -/
theorem c1_session_iff (inputs : List MonInput)
    (hok : ∀ i ∈ inputs, monInputOk i) :
    (mon_run inputs ⟨false, 0⟩).1.roblox_running = lastReadingAux inputs false
    ∧ ((mon_run inputs ⟨false, 0⟩).1.session_start ≠ 0
        ↔ (mon_run inputs ⟨false, 0⟩).1.roblox_running = true) := by
  have h := mon_run_spec inputs ⟨false, 0⟩ hok (by simp)
  simpa using h

/-- Witness for `c1_session_iff` on a concrete input sequence. -/
theorem c1_session_iff_witness :
    (mon_run [MonInput.reading true (some 5) 7,
        MonInput.logEvent ClassifiedEvent.disconnect,
        MonInput.reading false Option.none 9] ⟨false, 0⟩).1.roblox_running
      = lastReadingAux [MonInput.reading true (some 5) 7,
          MonInput.logEvent ClassifiedEvent.disconnect,
          MonInput.reading false Option.none 9] false
    ∧ ((mon_run [MonInput.reading true (some 5) 7,
          MonInput.logEvent ClassifiedEvent.disconnect,
          MonInput.reading false Option.none 9] ⟨false, 0⟩).1.session_start ≠ 0
        ↔ (mon_run [MonInput.reading true (some 5) 7,
            MonInput.logEvent ClassifiedEvent.disconnect,
            MonInput.reading false Option.none 9] ⟨false, 0⟩).1.roblox_running = true) :=
  c1_session_iff _ (by intro i hi; fin_cases hi <;> simp [monInputOk])

/-! Section C8 : idempotence of not-running readings while Idle -/

/-- Claim C8: from any state with `roblox_running = false`, any number of
further not-running readings (whatever their create-time estimates and
clock values) leave the state unchanged and emit no notification. -/
theorem c8_idle_idempotent (s : MonitorState) (ps : List (Option Int × Int))
    (h : s.roblox_running = false) :
    mon_run (ps.map (fun p => MonInput.reading false p.1 p.2)) s = (s, []) := by
  induction ps with
  | nil => rfl
  | cons p ps ih =>
    have hstep : monitor_step (MonInput.reading false p.1 p.2) s = (s, []) := by
      simp [monitor_step, h]
    simp only [List.map_cons, mon_run, hstep]
    simp [ih]

/-- Witness for `c8_idle_idempotent` on a concrete Idle state and two
concrete not-running readings. -/
theorem c8_idle_idempotent_witness :
    mon_run ([((some 3 : Option Int), (4 : Int)), (Option.none, 9)].map
        (fun p => MonInput.reading false p.1 p.2)) ⟨false, 0⟩
      = (⟨false, 0⟩, []) :=
  c8_idle_idempotent ⟨false, 0⟩ [(some 3, 4), (Option.none, 9)] rfl

/-! Section C3 : disconnect correlation on resume -/

/-- Claim C3: with a recorded Discord disconnect at `T`, `on_resumed`
emits exactly one notification — the combined one when the recorded Roblox
disconnect is at `T + 1800` (inside the 3600-second window), the plain
reconnect one when it is at `T + 7200` (outside the window) — and clears
`disconnect_timestamp` in both cases. -/
theorem c3_resume_correlation (s : BotConnState) (T : Int)
    (hd : s.disconnect_timestamp = some T) :
    (s.last_roblox_disconnect_time = some (T + 1800) →
      on_resumed s = ({ s with disconnect_timestamp := Option.none },
        [ResumeNotif.combined T (T + 1800)]))
    ∧ (s.last_roblox_disconnect_time = some (T + 7200) →
      on_resumed s = ({ s with disconnect_timestamp := Option.none },
        [ResumeNotif.plain T])) := by
  constructor
  · intro hr
    have habs : (T - (T + 1800)).natAbs ≤ 3600 := by
      have h1 : T - (T + 1800) = -1800 := by ring
      rw [h1]; decide
    simp only [on_resumed, hd, hr, habs, if_pos]
  · intro hr
    have habs : ¬ (T - (T + 7200)).natAbs ≤ 3600 := by
      have h1 : T - (T + 7200) = -7200 := by ring
      rw [h1]; decide
    simp only [on_resumed, hd, hr, habs, if_neg, not_false_eq_true]

/-- Witness for `c3_resume_correlation` at `T = 1000` in both the
30-minute and 2-hour configurations. -/
theorem c3_resume_correlation_witness :
    on_resumed ⟨some 1000, 0, some 2800⟩
      = (⟨Option.none, 0, some 2800⟩, [ResumeNotif.combined 1000 2800])
    ∧ on_resumed ⟨some 1000, 0, some 8200⟩
      = (⟨Option.none, 0, some 8200⟩, [ResumeNotif.plain 1000]) :=
  ⟨(c3_resume_correlation ⟨some 1000, 0, some 2800⟩ 1000 rfl).1 rfl,
   (c3_resume_correlation ⟨some 1000, 0, some 8200⟩ 1000 rfl).2 rfl⟩

/-! Section C5 : control-plane disconnect debounce -/

/-- Claim C5: a first disconnect signal past the debounce window records
its time, and a repeat signal any `d < 10` seconds later changes nothing:
exactly one timestamp is recorded, neither overwritten nor duplicated. -/
theorem c5_debounce (s : BotConnState) (t d : Int)
    (hempty : s.disconnect_timestamp = Option.none)
    (hfirst : s.last_discord_disconnect_time + 10 ≤ t)
    (hd0 : 0 ≤ d) (hd : d < 10) :
    on_disconnect t s
      = { s with last_discord_disconnect_time := t,
                 disconnect_timestamp := some t }
    ∧ on_disconnect (t + d) (on_disconnect t s) = on_disconnect t s := by
  have hguard : ¬ t - s.last_discord_disconnect_time < 10 := by omega
  have h1 : on_disconnect t s
      = { s with last_discord_disconnect_time := t,
                 disconnect_timestamp := some t } := by
    simp only [on_disconnect, hguard, if_neg, not_false_eq_true, hempty]
  refine ⟨h1, ?_⟩
  rw [h1]
  have hguard2 : (t + d) - t < 10 := by omega
  simp only [on_disconnect, hguard2, if_pos]

/-- Witness for `c5_debounce`: signal at `t = 100`, repeat at `t = 103`. -/
theorem c5_debounce_witness :
    on_disconnect 100 ⟨Option.none, 0, Option.none⟩
      = ⟨some 100, 100, Option.none⟩
    ∧ on_disconnect 103 (on_disconnect 100 ⟨Option.none, 0, Option.none⟩)
      = on_disconnect 100 ⟨Option.none, 0, Option.none⟩ :=
  c5_debounce ⟨Option.none, 0, Option.none⟩ 100 3 rfl (by decide) (by decide)
    (by decide)

/-! Section C6 : elapsed time -/

/-- Claim C6: while Running (`session_start ≠ 0`) the reported elapsed time
is computed on the monotonic clock only (`elapsed_time` takes no wall-clock
input) and equals `now - session_start` whenever the clock has not moved
backwards past the start; it is never negative; while Idle the uptime
report shows `"N/A"`. -/
theorem c6_elapsed (start now : Int) :
    (start ≠ 0 → start ≤ now → elapsed_time start now = now - start)
    ∧ 0 ≤ elapsed_time start now
    ∧ roblox_uptime_field false start now = "N/A"
    ∧ roblox_uptime_field true start now = hhmmss (elapsed_time start now) := by
  refine ⟨?_, ?_, rfl, rfl⟩
  · intro hne hle
    simp only [elapsed_time, hne, if_neg, not_false_eq_true]
    omega
  · by_cases hz : start = 0
    · simp [elapsed_time, hz]
    · simp only [elapsed_time, hz, if_neg, not_false_eq_true]
      exact le_max_left 0 _

/-- Witness for `c6_elapsed` at `start = 5`, `now = 12`. -/
theorem c6_elapsed_witness :
    elapsed_time 5 12 = 12 - 5
    ∧ 0 ≤ elapsed_time 5 12
    ∧ roblox_uptime_field false 5 12 = "N/A" :=
  ⟨(c6_elapsed 5 12).1 (by decide) (by decide),
   (c6_elapsed 5 12).2.1,
   (c6_elapsed 5 12).2.2.1⟩

/-! Section C7 : the one-shot ignore-next-disconnect flag -/

/-- Claim C7: when `flag_dc` is set and a line classifies as Disconnect,
the flag is consumed and nothing else happens (no notification, no
recorded disconnect time, no kill, tailing continues); the next Disconnect
line is then handled normally (time recorded, notification and kill
emitted, loop breaks). -/
theorem c7_flag (s : LogThreadState) (line line2 : List Char) (t t2 : Int)
    (hrun : s.stopped = false) (hflag : s.flag_dc = true)
    (hline : classify line = ClassifiedEvent.disconnect) :
    handle_line t s line = ({ s with flag_dc := false }, [])
    ∧ (classify line2 = ClassifiedEvent.disconnect →
      handle_line t2 { s with flag_dc := false } line2
        = ({ s with flag_dc := false,
                    last_roblox_disconnect_time := some t2,
                    stopped := true },
           [LogEffect.notifDisconnect line2, LogEffect.kill])) := by
  constructor
  · simp only [handle_line, hrun, hline, hflag]
    simp
  · intro hline2
    simp only [handle_line, hrun, hline2]
    simp

/-- Witness for `c7_flag` on two concrete disconnect lines. -/
theorem c7_flag_witness :
    handle_line 50 ⟨true, Option.none, false⟩
        "Lost connection with reason: foo".toList
      = (⟨false, Option.none, false⟩, [])
    ∧ handle_line 60 ⟨false, Option.none, false⟩
        "Disconnection Notification.".toList
      = (⟨false, some 60, true⟩,
         [LogEffect.notifDisconnect "Disconnection Notification.".toList,
          LogEffect.kill]) :=
  ⟨(c7_flag ⟨true, Option.none, false⟩
      "Lost connection with reason: foo".toList
      "Disconnection Notification.".toList 50 60 rfl rfl (by decide)).1,
   (c7_flag ⟨true, Option.none, false⟩
      "Lost connection with reason: foo".toList
      "Disconnection Notification.".toList 50 60 rfl rfl (by decide)).2
      (by decide)⟩

/-! Section C4 : log rotation in the tailer -/

/-- Claim C4, counterexample: the tailer starts at the end of an (empty)
file A; a newer file B appears already containing the lines `b0`, `b1`,
both appended after the tailer started.  The switch seeks to the end of B
(`f.seek(0, os.SEEK_END)`), so five poll iterations yield nothing, the
cursor after one iteration is already `⟨1, 2⟩` (end of B), and that cursor
is a fixed point of the poll step — the two lines are lost, refuting the
"no line appended after the tailer started is lost" part of the claim. -/
theorem c4_counterexample :
    (tailRun [[], ["b0".toList, "b1".toList]] 5 ⟨0, 0⟩).2 = []
    ∧ (tailRun [[], ["b0".toList, "b1".toList]] 1 ⟨0, 0⟩).1 = ⟨1, 2⟩
    ∧ tailStep [[], ["b0".toList, "b1".toList]] ⟨1, 2⟩
        = (⟨1, 2⟩, Option.none) := by
  refine ⟨by decide, by decide, by decide⟩

/-- Claim C4 (amended): when the current file is exhausted and a newer
file exists, the tailer switches to the newest file and seeks to its end,
so lines already present in the new file at the switch are skipped; from
then on it yields exactly the lines appended after the switch, in order
and without duplication. -/
theorem c4_tailer_switch :
    (∀ (dir : List TailFile) (s : TailState) (content : TailFile),
      dir.get? s.current = some content →
      content.length ≤ s.offset →
      dir.length - 1 ≠ s.current →
      tailStep dir s
        = (⟨dir.length - 1, ((dir.get? (dir.length - 1)).getD []).length⟩,
           Option.none))
    ∧ (∀ (dir : List TailFile) (j : Nat) (pre extra : TailFile),
      dir.get? j = some (pre ++ extra) →
      tailRun dir extra.length ⟨j, pre.length⟩
        = (⟨j, pre.length + extra.length⟩, extra)) := by
  constructor
  · intro dir s content hget hlen hne
    have hlt : ¬ s.offset < content.length := by omega
    simp only [tailStep, hget, hlt, dif_neg, not_false_eq_true, hne, if_pos,
      ne_eq, not_false_iff]
  · intro dir j pre extra
    induction extra generalizing pre with
    | nil =>
      intro _
      simp [tailRun]
    | cons e rest ih =>
      intro hget
      have hlt : pre.length < (pre ++ e :: rest).length := by
        simp [List.length_append]
      have hgetelem : (pre ++ e :: rest).get ⟨pre.length, hlt⟩ = e := by
        rw [List.get_eq_getElem]
        rw [List.getElem_append_right (le_refl pre.length)]
        simp
      have hstep : tailStep dir ⟨j, pre.length⟩
          = (⟨j, pre.length + 1⟩, some e) := by
        simp only [tailStep, hget, hlt, dif_pos, hgetelem]
      have hget' : dir.get? j = some ((pre ++ [e]) ++ rest) := by
        rw [hget]; congr 1; simp
      have hrec := ih (pre ++ [e]) hget'
      simp only [List.length_append, List.length_cons, List.length_nil] at hrec
      simp only [List.length_cons, tailRun, hstep]
      rw [show pre.length + 1 = pre.length + 1 + 0 from rfl] at hrec
      simp only [Nat.add_zero] at hrec
      rw [hrec]
      have harith : pre.length + 1 + rest.length = pre.length + (rest.length + 1) := by
        omega
      simp [harith]

/-- Witness for `c4_tailer_switch`: a concrete switch from an exhausted
file to the end of a newer one, and a concrete post-switch run yielding
exactly the one appended line. -/
theorem c4_tailer_switch_witness :
    tailStep [["a0".toList], ["x0".toList, "x1".toList]] ⟨0, 1⟩
      = (⟨1, 2⟩, Option.none)
    ∧ tailRun [["p0".toList, "q0".toList]] 1 ⟨0, 1⟩
      = (⟨0, 2⟩, ["q0".toList]) :=
  ⟨c4_tailer_switch.1 [["a0".toList], ["x0".toList, "x1".toList]] ⟨0, 1⟩
      ["a0".toList] rfl (by decide) (by decide),
   c4_tailer_switch.2 [["p0".toList, "q0".toList]] 0
      ["p0".toList] ["q0".toList] rfl⟩

/-! Section C10 : exit-code classification in the wrapper -/

/-- Claim C10: exit code `0` stops the wrapper with no restart and no
crash recorded, exit code `1` (configuration error) likewise, and any
other exit code — and only those — takes the crash/restart/backoff
branch. -/
theorem c10_exit_codes (now : Int) (s : WrapperState) :
    exit_step 0 now s = (s, false)
    ∧ exit_step 1 now s = (s, false)
    ∧ ∀ code : Int, code ≠ 0 → code ≠ 1 → exit_step code now s = crash_step now s := by
  refine ⟨rfl, rfl, ?_⟩
  intro code hc0 hc1
  rw [exit_step, if_neg hc0, if_neg hc1]

/-- Witness for `c10_exit_codes` at concrete exit codes `0`, `1`, `137`. -/
theorem c10_exit_codes_witness :
    exit_step 0 5 wrapper_init = (wrapper_init, false)
    ∧ exit_step 1 5 wrapper_init = (wrapper_init, false)
    ∧ exit_step 137 5 wrapper_init = crash_step 5 wrapper_init :=
  ⟨(c10_exit_codes 5 wrapper_init).1, (c10_exit_codes 5 wrapper_init).2.1,
   (c10_exit_codes 5 wrapper_init).2.2 137 (by decide) (by decide)⟩

/-! Section C9 : crash rate limiting -/

theorem run_exits_append_false (a b : List (Int × Int)) (s s1 : WrapperState)
    (h : run_exits a s = (s1, false)) : run_exits (a ++ b) s = (s1, false) := by
  induction a generalizing s with
  | nil => simp [run_exits] at h
  | cons e a ih =>
    simp only [run_exits, List.cons_append] at h ⊢
    cases hx : exit_step e.1 e.2 s with
    | mk sa ca =>
      rw [hx] at h
      cases ca with
      | true => exact ih sa h
      | false => exact h

theorem run_exits_append_true (a b : List (Int × Int)) (s s1 : WrapperState)
    (h : run_exits a s = (s1, true)) : run_exits (a ++ b) s = run_exits b s1 := by
  induction a generalizing s with
  | nil =>
    simp only [run_exits] at h
    injection h with h1 _
    rw [List.nil_append, h1]
  | cons e a ih =>
    simp only [run_exits, List.cons_append] at h ⊢
    cases hx : exit_step e.1 e.2 s with
    | mk sa ca =>
      rw [hx] at h
      cases ca with
      | true => exact ih sa h
      | false =>
        exfalso
        have h2 : (sa, false) = (s1, true) := h
        simp at h2

theorem exit_step_true_list (code now : Int) (s sa : WrapperState)
    (h : exit_step code now s = (sa, true)) :
    sa.last_crash_times
      = s.last_crash_times.filter (fun x => decide (now - x < 60)) ++ [now] := by
  by_cases h0 : code = 0
  · rw [exit_step, if_pos h0] at h
    exact absurd h (by simp)
  by_cases h1 : code = 1
  · rw [exit_step, if_neg h0, if_pos h1] at h
    exact absurd h (by simp)
  rw [exit_step, if_neg h0, if_neg h1, crash_step] at h
  split at h
  · exact absurd h (by simp)
  split at h
  · exact absurd h (by simp)
  injection h with ha _
  rw [← ha]
  simp [record_crash]

theorem filter_window_comm (l : List Int) (t N : Int) (ht : t ≤ N) :
    (l.filter (fun x => decide (t - x < 60))).filter (fun x => decide (N - x < 60))
      = l.filter (fun x => decide (N - x < 60)) := by
  induction l with
  | nil => rfl
  | cons a l ih =>
    by_cases hN : N - a < 60
    · have htc : t - a < 60 := by omega
      simp [List.filter_cons, hN, htc, ih]
    · by_cases htc : t - a < 60
      · simp [List.filter_cons, hN, htc, ih]
      · simp [List.filter_cons, hN, htc, ih]

/-- While the wrapper keeps restarting, every processed crash time within
60 seconds of a later reference time `N` stays in `last_crash_times`: the
retained window at `N` has grown by at least the crashes within that
window. -/
theorem run_exits_crash_window (N : Int) :
    ∀ (q : List (Int × Int)) (s s1 : WrapperState),
      run_exits q s = (s1, true) →
      (∀ e ∈ q, e.2 ≤ N) →
      (s.last_crash_times.filter (fun x => decide (N - x < 60))).length
        + (q.filter (fun e => decide (N - e.2 < 60))).length
        ≤ (s1.last_crash_times.filter (fun x => decide (N - x < 60))).length := by
  intro q
  induction q with
  | nil =>
    intro s s1 h _
    simp only [run_exits] at h
    injection h with h1 _
    simp [h1]
  | cons e q ih =>
    intro s s1 h hall
    simp only [run_exits] at h
    cases hx : exit_step e.1 e.2 s with
    | mk sa ca =>
    rw [hx] at h
    cases ca with
    | false =>
      exfalso
      have h2 : (sa, false) = (s1, true) := h
      simp at h2
    | true =>
      have h : run_exits q sa = (s1, true) := h
      have hall' : ∀ x ∈ q, x.2 ≤ N := fun x hx' => hall x (List.mem_cons_of_mem _ hx')
      have heN : e.2 ≤ N := hall e (List.mem_cons_self _ _)
      have hlist : sa.last_crash_times
          = s.last_crash_times.filter (fun x => decide (e.2 - x < 60)) ++ [e.2] :=
        exit_step_true_list e.1 e.2 s sa hx
      have hmain := ih sa s1 h hall'
      rw [hlist, List.filter_append, List.length_append,
        filter_window_comm s.last_crash_times e.2 N heN] at hmain
      by_cases hw : N - e.2 < 60
      · have h1 : (List.filter (fun x => decide (N - x < 60)) [e.2]).length = 1 := by
          simp [hw]
        have h2 : (List.filter (fun ee => decide (N - ee.2 < 60)) (e :: q)).length
            = (List.filter (fun ee => decide (N - ee.2 < 60)) q).length + 1 := by
          simp [List.filter_cons, hw]
        rw [h1] at hmain
        rw [h2]
        omega
      · have h1 : (List.filter (fun x => decide (N - x < 60)) [e.2]).length = 0 := by
          simp [hw]
        have h2 : (List.filter (fun ee => decide (N - ee.2 < 60)) (e :: q)).length
            = (List.filter (fun ee => decide (N - ee.2 < 60)) q).length := by
          simp [List.filter_cons, hw]
        rw [h1] at hmain
        rw [h2]
        omega

theorem crash_step_rate_limited (now : Int) (s : WrapperState)
    (hcount : 5 ≤ (s.last_crash_times.filter (fun x => decide (now - x < 60))).length) :
    (crash_step now s).2 = false := by
  have h6 : 5 < (s.last_crash_times.filter (fun x => decide (now - x < 60))).length + 1 := by
    omega
  simp [crash_step, should_rate_limit, record_crash, h6]

theorem exit_step_rate_limited (code now : Int) (s : WrapperState)
    (hcount : 5 ≤ (s.last_crash_times.filter (fun x => decide (now - x < 60))).length) :
    (exit_step code now s).2 = false := by
  by_cases h0 : code = 0
  · rw [exit_step, if_pos h0]
  by_cases h1 : code = 1
  · rw [exit_step, if_neg h0, if_pos h1]
  rw [exit_step, if_neg h0, if_neg h1]
  exact crash_step_rate_limited now s hcount

/-- Claim C9: for every sequence of child exits, once six crashes fall
inside a rolling 60-second window (times nondecreasing across the six, the
sixth within 60 seconds of the first), the wrapper is permanently
unwilling to restart after processing the sequence — whatever came before
or after and whatever the exit codes were; and three crashes with exit
code `137` within 10 seconds from a fresh wrapper still restart. -/
theorem c9_rate_limit :
    (∀ (pre post : List (Int × Int)) (k1 k2 k3 k4 k5 k6 u1 u2 u3 u4 u5 u6 : Int)
        (s : WrapperState),
      u1 ≤ u2 → u2 ≤ u3 → u3 ≤ u4 → u4 ≤ u5 → u5 ≤ u6 → u6 - u1 < 60 →
      (run_exits (pre ++ ([(k1, u1), (k2, u2), (k3, u3), (k4, u4), (k5, u5)]
          ++ ((k6, u6) :: post))) s).2 = false)
    ∧ (∀ (u1 u2 u3 : Int), u1 ≤ u2 → u2 ≤ u3 → u3 - u1 < 10 →
      (run_exits [(137, u1), (137, u2), (137, u3)] wrapper_init).2 = true) := by
  constructor
  · intro pre post k1 k2 k3 k4 k5 k6 u1 u2 u3 u4 u5 u6 s h12 h23 h34 h45 h56 hwin
    cases hpre : run_exits pre s with
    | mk s0 c0 =>
    cases c0 with
    | false =>
      rw [run_exits_append_false pre _ s s0 hpre]
    | true =>
      rw [run_exits_append_true pre _ s s0 hpre]
      cases h5 : run_exits [(k1, u1), (k2, u2), (k3, u3), (k4, u4), (k5, u5)] s0 with
      | mk s5 c5 =>
      cases c5 with
      | false =>
        rw [run_exits_append_false _ _ s0 s5 h5]
      | true =>
        rw [run_exits_append_true _ _ s0 s5 h5]
        have hall5 : ∀ x ∈ [((k1 : Int), u1), (k2, u2), (k3, u3), (k4, u4), (k5, u5)],
            x.2 ≤ u6 := by
          intro x hx
          fin_cases hx <;> simp <;> omega
        have hcount := run_exits_crash_window u6 _ s0 s5 h5 hall5
        have w1 : u6 - u1 < 60 := by omega
        have w2 : u6 - u2 < 60 := by omega
        have w3 : u6 - u3 < 60 := by omega
        have w4 : u6 - u4 < 60 := by omega
        have w5 : u6 - u5 < 60 := by omega
        have hfive : (List.filter (fun ee => decide (u6 - ee.2 < 60))
            [((k1 : Int), u1), (k2, u2), (k3, u3), (k4, u4), (k5, u5)]).length = 5 := by
          simp [List.filter_cons, w1, w2, w3, w4, w5]
        rw [hfive] at hcount
        have hlim : 5 ≤ (s5.last_crash_times.filter
            (fun x => decide (u6 - x < 60))).length := by
          omega
        have hstep := exit_step_rate_limited k6 u6 s5 hlim
        simp only [run_exits]
        cases hx : exit_step k6 u6 s5 with
        | mk s6 c6 =>
        rw [hx] at hstep
        simp only at hstep
        rw [hstep]
  · intro u1 u2 u3 h12 h23 hwin
    have w21 : u2 - u1 < 60 := by omega
    have w31 : u3 - u1 < 60 := by omega
    have w32 : u3 - u2 < 60 := by omega
    simp [run_exits, exit_step, crash_step, record_crash, should_rate_limit,
      can_restart, wrapper_init, w21, w31, w32]

/-- Witness for `c9_rate_limit`: six crashes one second apart stop the
wrapper permanently, three crashes one second apart still restart. -/
theorem c9_rate_limit_witness :
    (run_exits ([] ++ ([(137, 0), (137, 1), (137, 2), (137, 3), (137, 4)]
        ++ ((137, 5) :: []))) wrapper_init).2 = false
    ∧ (run_exits [(137, 0), (137, 1), (137, 2)] wrapper_init).2 = true :=
  ⟨c9_rate_limit.1 [] [] 137 137 137 137 137 137 0 1 2 3 4 5 wrapper_init
      (by decide) (by decide) (by decide) (by decide) (by decide) (by decide),
   c9_rate_limit.2 0 1 2 (by decide) (by decide) (by decide)⟩
